import Mathlib

/-!
# Verification of the update-set tracking core of a ServiceNow MCP server

Shallow embedding of the update-set-scoped record-creation core of the
repository (src/services/servicenow-api.ts and src/simple-server.ts):
record payloads as association lists of JSON-like values with JavaScript
truthiness, the two tracking-field injection points, the client- and
session-level `setCurrentUpdateSet` control flow (remote negotiation
modelled as an explicit outcome environment), the per-record-type payload
builders, the `createCatalogUIPolicyAction` resolution algorithm, the
`getCurrentUpdateSet` and `updateBusinessRule` handlers, and the
call-tool dispatcher.  Remote HTTP interaction is modelled by explicit
environments (`Except`-valued oracles); thrown JavaScript errors are
modelled as `Except.error` carrying the message string.
-/

set_option autoImplicit false

/-- A JSON-like field value as it appears in record payloads and remote
records.  `obj` covers the wrapped reference-field shape
(`\x7b value: "id" \x7d`) returned by some API surfaces; its entries are
string-valued, which is the only shape the source ever reads. -/
inductive Value where
  | str : String → Value
  | bool : Bool → Value
  | num : Int → Value
  | obj : List (String × String) → Value
deriving DecidableEq, Repr

/-- A record payload: an ordered mapping from field name to value,
modelling a JavaScript object literal. -/
abbrev Payload := List (String × Value)

/-- A remote record has the same shape as a payload. -/
abbrev Record := Payload

/-- First binding of a key, modelling JavaScript property read
(`none` = the property is absent / `undefined`). -/
def lookupField : Payload → String → Option Value
  | [], _ => none
  | (k', v') :: rest, k => if k' = k then some v' else lookupField rest k

/-- Property lookup in the string-valued entry list of a wrapped object. -/
def lookupPairs : List (String × String) → String → Option String
  | [], _ => none
  | (k', v') :: rest, k => if k' = k then some v' else lookupPairs rest k

/-- JavaScript property assignment `p[k] = v`: replace the binding in
place if the key is present, else append it. -/
def setField : Payload → String → Value → Payload
  | [], k, v => [(k, v)]
  | (k', v') :: rest, k, v =>
      if k' = k then (k, v) :: rest else (k', v') :: setField rest k v

/-- JavaScript truthiness of a field value: empty strings, `false` and
`0` are falsy; objects are always truthy. -/
def jsTruthy : Value → Bool
  | .str s => s ≠ ""
  | .bool b => b
  | .num n => n ≠ 0
  | .obj _ => true

/-- Truthiness of a property read: an absent property (`undefined`) is
falsy. -/
def truthyField (p : Payload) (k : String) : Bool :=
  match lookupField p k with
  | some v => jsTruthy v
  | none => false

/-- JavaScript `o || d` on an optional string parameter: the default is
used when the parameter is absent or empty. -/
def jsOrStr (o : Option String) (d : String) : String :=
  match o with
  | some s => if s = "" then d else s
  | none => d

/-- JavaScript `o || d` on an optional numeric parameter: the default is
used when the parameter is absent or `0`. -/
def jsOrInt (o : Option Int) (d : Int) : Int :=
  match o with
  | some n => if n = 0 then d else n
  | none => d

/-- JavaScript `params.b !== false` on an optional boolean flag:
`true` unless the caller explicitly supplied `false`. -/
def jsNeqFalse : Option Bool → Bool
  | some false => false
  | _ => true

/-- JavaScript `params.b || false` on an optional boolean flag:
`false` unless the caller explicitly supplied `true`. -/
def jsOrFalse : Option Bool → Bool
  | some true => true
  | _ => false

/-- String rendering of a value inside a template literal. -/
def renderValue : Value → String
  | .str s => s
  | .bool b => if b then "true" else "false"
  | .num n => toString n
  | .obj _ => "[object Object]"

/-- Template-literal interpolation of a record field
(an absent property prints as `undefined`). -/
def fieldAsString (r : Record) (k : String) : String :=
  match lookupField r k with
  | some v => renderValue v
  | none => "undefined"

/-- Template-literal interpolation of `r[k] || d`. -/
def fieldDisplay (r : Record) (k : String) (d : String) : String :=
  match lookupField r k with
  | some v => if jsTruthy v then renderValue v else d
  | none => d

namespace Api

/-- Mutable state of `ServiceNowApiService`: the sys-id of the update
set currently believed to be current (`currentUpdateSetId`,
servicenow-api.ts:103). -/
structure ClientState where
  currentUpdateSetId : Option String := none
deriving DecidableEq, Repr

/-- The tracking-field injection performed at the top of the client's
`createRecord` (servicenow-api.ts:185-189):
`if (this.currentUpdateSetId && !data.sys_update_set)
   data.sys_update_set = this.currentUpdateSetId`. -/
def injectUpdateSet (current : Option String) (data : Payload) : Payload :=
  match current with
  | some s =>
      if s ≠ "" && !truthyField data "sys_update_set" then
        setField data "sys_update_set" (.str s)
      else data
  | none => data

/-- An HTTP request as issued by the axios client. -/
structure HttpRequest where
  method : String
  path : String
  body : Payload
deriving DecidableEq, Repr

/-- The request transmitted by the client's `createRecord`
(servicenow-api.ts:185-193): injection, then POST of the payload. -/
def createRecordRequest (st : ClientState) (table : String) (data : Payload) : HttpRequest :=
  { method := "POST"
    path := "/api/now/table/" ++ table
    body := injectUpdateSet st.currentUpdateSetId data }

/-- The request transmitted by the client's `updateRecord`
(servicenow-api.ts:277-280): a direct PUT of the payload, with no
tracking-field injection. -/
def updateRecordRequest (table sysId : String) (data : Payload) : HttpRequest :=
  { method := "PUT"
    path := "/api/now/table/" ++ table ++ "/" ++ sysId
    body := data }

/-- Outcomes of the remote calls made during the user-preference
negotiation of the client's `setCurrentUpdateSet`
(servicenow-api.ts:208-250).  `Except.error` models a thrown error
(transport failure) carrying its message. -/
structure RemoteEnv where
  userLookup : Except String (List Record)
  prefLookup : Except String (List Record)
  prefPut : Except String Unit
  prefCreate : Except String Unit

/-- The remote user-preference negotiation inside the `try` block of the
client's `setCurrentUpdateSet` (servicenow-api.ts:209-231): look up the
calling user, fail if absent, then update or create the
`sys_update_set` user preference. -/
def preferenceNegotiation (env : RemoteEnv) : Except String Unit := do
  let users ← env.userLookup
  if users.isEmpty then
    throw "Could not determine current user ID"
  let prefs ← env.prefLookup
  if prefs.isEmpty then env.prefCreate else env.prefPut

/-- The client's `setCurrentUpdateSet` (servicenow-api.ts:208-250).
On success the local `currentUpdateSetId` is assigned at the end of the
`try` block; on any thrown error the `catch` block assigns it anyway and
rethrows.  Returns the new state and the call's outcome. -/
def setCurrentUpdateSet (env : RemoteEnv) (st : ClientState) (sysId : String) :
    ClientState × Except String Unit :=
  match preferenceNegotiation env with
  | .ok _ => ({ st with currentUpdateSetId := some sysId }, .ok ())
  | .error e => ({ st with currentUpdateSetId := some sysId }, .error e)

end Api

namespace Api

/-- Parameters of `createScriptInclude` (servicenow-api.ts:5-13). -/
structure ScriptIncludeParams where
  name : String
  script : String
  description : Option String := none
  application_scope : Option String := none
  api_name : Option String := none
  access : Option String := none
  active : Option Bool := none

/-- Payload built by `createScriptInclude` (servicenow-api.ts:282-294).
`defaultScope` is the client configuration's default scope. -/
def createScriptIncludeData (defaultScope : String) (p : ScriptIncludeParams) : Payload :=
  [("name", .str p.name),
   ("script", .str p.script),
   ("description", .str (jsOrStr p.description "")),
   ("sys_scope", .str (jsOrStr p.application_scope defaultScope)),
   ("api_name", .str (jsOrStr p.api_name p.name)),
   ("access", .str (jsOrStr p.access "package_private")),
   ("active", .bool (jsNeqFalse p.active))]

/-- Parameters of `createScheduledJob` (servicenow-api.ts:15-26). -/
structure ScheduledJobParams where
  name : String
  script : String
  description : Option String := none
  run_period : Option String := none
  run_time : Option String := none
  run_dayofweek : Option String := none
  run_dayofmonth : Option String := none
  active : Option Bool := none
  conditional : Option Bool := none
  condition : Option String := none

/-- Payload built by `createScheduledJob` (servicenow-api.ts:296-311). -/
def createScheduledJobData (p : ScheduledJobParams) : Payload :=
  [("name", .str p.name),
   ("script", .str p.script),
   ("description", .str (jsOrStr p.description "")),
   ("run_period", .str (jsOrStr p.run_period "daily")),
   ("run_time", .str (jsOrStr p.run_time "00:00:00")),
   ("run_dayofweek", .str (jsOrStr p.run_dayofweek "")),
   ("run_dayofmonth", .str (jsOrStr p.run_dayofmonth "")),
   ("active", .bool (jsNeqFalse p.active)),
   ("conditional", .bool (jsOrFalse p.conditional)),
   ("condition", .str (jsOrStr p.condition ""))]

/-- Parameters of `createEmailNotification` (servicenow-api.ts:28-40).
The source's `from` parameter is modelled as `from_addr` (`from` is a
reserved word here). -/
structure EmailNotificationParams where
  name : String
  table : String
  event : String
  subject : String
  message : String
  recipients : Option String := none
  cc_list : Option String := none
  from_addr : Option String := none
  active : Option Bool := none
  advanced_condition : Option String := none
  weight : Option Int := none

/-- Payload built by `createEmailNotification`
(servicenow-api.ts:313-329). -/
def createEmailNotificationData (p : EmailNotificationParams) : Payload :=
  [("name", .str p.name),
   ("table", .str p.table),
   ("event", .str p.event),
   ("subject", .str p.subject),
   ("message", .str p.message),
   ("recipients", .str (jsOrStr p.recipients "")),
   ("cc_list", .str (jsOrStr p.cc_list "")),
   ("from", .str (jsOrStr p.from_addr "")),
   ("active", .bool (jsNeqFalse p.active)),
   ("advanced_condition", .str (jsOrStr p.advanced_condition "")),
   ("weight", .num (jsOrInt p.weight 0))]

/-- Parameters of `createCatalogClientScript`
(servicenow-api.ts:42-51). -/
structure CatalogClientScriptParams where
  name : String
  catalog_item : String
  type : String
  script : String
  field : Option String := none
  description : Option String := none
  active : Option Bool := none
  applies_to : Option String := none

/-- Payload built by `createCatalogClientScript`
(servicenow-api.ts:331-344). -/
def createCatalogClientScriptData (p : CatalogClientScriptParams) : Payload :=
  [("name", .str p.name),
   ("cat_item", .str p.catalog_item),
   ("type", .str p.type),
   ("script", .str p.script),
   ("field", .str (jsOrStr p.field "")),
   ("description", .str (jsOrStr p.description "")),
   ("active", .bool (jsNeqFalse p.active)),
   ("applies_to", .str (jsOrStr p.applies_to "catalog"))]

/-- The optional `options` argument of `createUIPolicy`
(servicenow-api.ts:346-352); an omitted object is the all-`none`
record. -/
structure UIPolicyOptions where
  description : Option String := none
  on_load : Option Bool := none
  catalog_item : Option String := none
  script_true : Option String := none
  script_false : Option String := none

/-- Payload built by `createUIPolicy` (servicenow-api.ts:346-366).
Note `active` is unconditionally `true` in the source. -/
def createUIPolicyData (table name conditions : String) (o : UIPolicyOptions) : Payload :=
  [("short_description", .str name),
   ("table", .str table),
   ("conditions", .str conditions),
   ("description", .str (jsOrStr o.description "")),
   ("active", .bool true),
   ("on_load", .bool (jsNeqFalse o.on_load)),
   ("catalog_item", .str (jsOrStr o.catalog_item "")),
   ("script_true", .str (jsOrStr o.script_true "")),
   ("script_false", .str (jsOrStr o.script_false ""))]

/-- Parameters of `createCatalogUIPolicy` (servicenow-api.ts:368-383). -/
structure CatalogUIPolicyParams where
  catalog_item : Option String := none
  variable_set : Option String := none
  applies_to : Option String := none
  name : String
  short_description : Option String := none
  active : Option Bool := none
  catalog_conditions : Option String := none
  applies_on_catalog_item_view : Option Bool := none
  applies_on_requested_items : Option Bool := none
  applies_on_catalog_tasks : Option Bool := none
  applies_on_target_record : Option Bool := none
  on_load : Option Bool := none
  reverse_if_false : Option Bool := none
  order : Option Int := none

/-- Payload built by `createCatalogUIPolicy`
(servicenow-api.ts:384-399). -/
def createCatalogUIPolicyData (p : CatalogUIPolicyParams) : Payload :=
  [("name", .str p.name),
   ("short_description", .str (jsOrStr p.short_description p.name)),
   ("catalog_item", .str (jsOrStr p.catalog_item "")),
   ("variable_set", .str (jsOrStr p.variable_set "")),
   ("applies_to", .str (if p.applies_to = some "A Variable Set" then "variable_set" else "item")),
   ("catalog_conditions", .str (jsOrStr p.catalog_conditions "")),
   ("active", .bool (jsNeqFalse p.active)),
   ("applies_catalog", .bool (jsNeqFalse p.applies_on_catalog_item_view)),
   ("applies_req_item", .bool (jsOrFalse p.applies_on_requested_items)),
   ("applies_sc_task", .bool (jsOrFalse p.applies_on_catalog_tasks)),
   ("applies_target_record", .bool (jsOrFalse p.applies_on_target_record)),
   ("on_load", .bool (jsNeqFalse p.on_load)),
   ("reverse_if_false", .bool (jsOrFalse p.reverse_if_false)),
   ("order", .num (jsOrInt p.order 100))]

/-- Parameters of `createFlow` (servicenow-api.ts:58-63). -/
structure FlowParams where
  name : String
  description : Option String := none
  scope : Option String := none
  active : Option Bool := none

/-- Payload built by `createFlow` (servicenow-api.ts:492-502). -/
def createFlowData (defaultScope : String) (p : FlowParams) : Payload :=
  [("name", .str p.name),
   ("description", .str (jsOrStr p.description "")),
   ("sys_scope", .str (jsOrStr p.scope defaultScope)),
   ("active", .bool (jsNeqFalse p.active)),
   ("state", .str "published")]

end Api

namespace Api

/-- Parameters of `createCatalogUIPolicyAction`
(servicenow-api.ts:404-415). -/
structure CatalogUIPolicyActionParams where
  catalog_ui_policy : String
  variable_name : String
  order : Option Int := none
  mandatory : Option String := none
  visible : Option String := none
  read_only : Option String := none
  value_action : Option String := none
  value : Option String := none
  field_message_type : Option String := none
  field_message : Option String := none

/-- A remote read environment: `getRecords(table, query)` outcomes
(`Except.error` = transport failure thrown by the axios call). -/
abbrev RemoteData := String → String → Except String (List Record)

/-- JavaScript reference-field access in `createCatalogUIPolicyAction`
(servicenow-api.ts:427-429): `typeof v === 'object' ? v.value : v`.
`none` models an `undefined` result (`value` key absent on an object). -/
def refValue : Value → Option Value
  | .obj fields => (lookupPairs fields "value").map Value.str
  | v => some v

/-- Resolution of the UI policy's catalog-item reference
(servicenow-api.ts:422-433): falsy/absent `catalog_item` fails with
"no catalog item"; the dereferenced value is then rendered and must be
truthy, otherwise "reference is empty". -/
def resolveCatalogItemId (policy : Record) : Except String String :=
  match lookupField policy "catalog_item" with
  | none => .error "Catalog UI Policy has no catalog item"
  | some v =>
      if !jsTruthy v then .error "Catalog UI Policy has no catalog item"
      else
        match refValue v with
        | none => .error "Catalog UI Policy catalog_item reference is empty"
        | some w =>
            if !jsTruthy w then .error "Catalog UI Policy catalog_item reference is empty"
            else .ok (renderValue w)

/-- `p[k] = v` when the optional string parameter is supplied
(the `if (params.x !== undefined)` pattern of
servicenow-api.ts:466-486). -/
def maybeSetStr (p : Payload) (k : String) (o : Option String) : Payload :=
  match o with
  | some s => setField p k (.str s)
  | none => p

/-- The `cleared` derivation (servicenow-api.ts:475-477): when
`value_action` is supplied, `cleared` is the string `"true"` exactly for
`'clear_value'`, else `"false"`. -/
def clearedStep (p : Payload) (o : Option String) : Payload :=
  match o with
  | some va => setField p "cleared" (.str (if va = "clear_value" then "true" else "false"))
  | none => p

/-- The `default_value` step (servicenow-api.ts:478-480): set only when
`value` is supplied and `value_action === 'set_value'`. -/
def defaultValueStep (p : Payload) (v va : Option String) : Payload :=
  match v, va with
  | some s, some act => if act = "set_value" then setField p "default_value" (.str s) else p
  | _, _ => p

/-- The action payload built by `createCatalogUIPolicyAction` once the
variable sys-id is resolved (servicenow-api.ts:458-487): base fields in
declaration order, then the conditional field mappings in source
order. -/
def buildCatalogUIPolicyActionData (p : CatalogUIPolicyActionParams)
    (variableSysId : String) : Payload :=
  let a : Payload :=
    [("ui_policy", .str p.catalog_ui_policy),
     ("catalog_variable", .str ("IO:" ++ variableSysId)),
     ("variable", .str p.variable_name),
     ("order", .num (jsOrInt p.order 100))]
  let a := maybeSetStr a "mandatory" p.mandatory
  let a := maybeSetStr a "visible" p.visible
  let a := maybeSetStr a "disabled" p.read_only
  let a := clearedStep a p.value_action
  let a := defaultValueStep a p.value p.value_action
  let a := maybeSetStr a "help_tag" p.field_message_type
  let a := maybeSetStr a "help_text" p.field_message
  a

/-- The diagnostic error thrown when zero variables match
(servicenow-api.ts:447): it reports the searched name, the catalog item
and the total variable count — the variable names themselves are only
written to the log, not to the message. -/
def variableNotFoundMsg (name catalogItemId : String) (total : Nat) : String :=
  "Variable '" ++ name ++ "' not found in catalog item " ++ catalogItemId ++
    ". Found " ++ toString total ++ " total variables."

/-- Continuation of `createCatalogUIPolicyAction` after the catalog item
is resolved (servicenow-api.ts:435-489): query the variable by name
scoped to the catalog item; on zero matches re-query all variables of
the item and throw the diagnostic error; otherwise take the first match
and build the action payload. -/
def afterResolve (env : RemoteData) (p : CatalogUIPolicyActionParams)
    (catalogItemId : String) : Except String Payload := do
  let vars ← env "item_option_new"
    ("cat_item=" ++ catalogItemId ++ "^name=" ++ p.variable_name)
  match vars with
  | [] => do
      let allVariables ← env "item_option_new" ("cat_item=" ++ catalogItemId)
      throw (variableNotFoundMsg p.variable_name catalogItemId allVariables.length)
  | v :: _ => pure (buildCatalogUIPolicyActionData p (fieldAsString v "sys_id"))

/-- `createCatalogUIPolicyAction` (servicenow-api.ts:404-490) up to the
payload handed to `createRecord`: fetch the UI-policy record by sys-id,
resolve its catalog-item reference, then resolve the variable and build
the action payload. -/
def createCatalogUIPolicyActionCore (env : RemoteData)
    (p : CatalogUIPolicyActionParams) : Except String Payload := do
  let policyRecords ← env "catalog_ui_policy" ("sys_id=" ++ p.catalog_ui_policy)
  match policyRecords with
  | [] => throw "Catalog UI Policy not found"
  | policy :: _ => do
      let catalogItemId ← resolveCatalogItemId policy
      afterResolve env p catalogItemId

end Api

namespace Server

/-- Session-controller state of `SimpleServiceNowMCPServer`: the tracked
update-set id (`currentUpdateSetId`, simple-server.ts:13, initial
`null`). -/
structure ServerState where
  currentUpdateSetId : Option String := none
deriving DecidableEq, Repr

/-- A tool result as returned to the transport: a list of text content
blocks. -/
structure ToolResponse where
  content : List String
deriving DecidableEq, Repr

/-- The session-level injection helper `addUpdateSetToRecord`
(simple-server.ts:2151-2156):
`if (this.currentUpdateSetId && !recordData.sys_update_set)
   recordData.sys_update_set = this.currentUpdateSetId`. -/
def addUpdateSetToRecord (current : Option String) (recordData : Payload) : Payload :=
  match current with
  | some s =>
      if s ≠ "" && !truthyField recordData "sys_update_set" then
        setField recordData "sys_update_set" (.str s)
      else recordData
  | none => recordData

/-- The success text returned by the `set-current-update-set` handler
(simple-server.ts:1915-1924) — the same text whether or not the remote
preference negotiation succeeded. -/
def setCurrentSuccessText (updateSetId : String) : String :=
  "✅ Update set tracked for this session. All subsequent record creations will be associated with this update set.\n" ++
  "Update Set ID: " ++ updateSetId ++ "\n" ++
  "Note: Due to REST API limitations, we set the sys_update_set field directly on each record rather than changing the session preference."

/-- The `set-current-update-set` handler `setCurrentUpdateSet`
(simple-server.ts:1898-1935): store the id locally first, then attempt
the client-level preference negotiation with its error swallowed (only
logged), and return the unconditional success report.  The client is
constructed lazily by `getServiceNowApi` (simple-server.ts:663-679),
whose `authenticate` never fails. -/
def setCurrentUpdateSetTool (env : Api.RemoteEnv) (sst : ServerState)
    (cst : Api.ClientState) (updateSetId : String) :
    ServerState × Api.ClientState × ToolResponse :=
  let sst' : ServerState := { sst with currentUpdateSetId := some updateSetId }
  let r := Api.setCurrentUpdateSet env cst updateSetId
  (sst', r.1, ⟨[setCurrentSuccessText updateSetId]⟩)

/-- Detailed report of `getCurrentUpdateSet` when the tracked update
set's record was fetched (simple-server.ts:2166-2178). -/
def currentDetailText (r : Record) (updateSetId : String) : String :=
  "✅ Current tracked update set:\n" ++
  "Name: " ++ fieldAsString r "name" ++ "\n" ++
  "Description: " ++ fieldDisplay r "description" "None" ++ "\n" ++
  "State: " ++ fieldAsString r "state" ++ "\n" ++
  "ID: " ++ updateSetId ++ "\n" ++
  "Note: This update set is being applied to all record creations in this session."

/-- Fallback report of `getCurrentUpdateSet` when fetching the record
threw (simple-server.ts:2180-2191). -/
def currentRawIdText (updateSetId : String) : String :=
  "✅ Current tracked update set ID: " ++ updateSetId ++ "\n" ++
  "Note: This update set is being applied to all record creations in this session."

/-- Report of `getCurrentUpdateSet` when no id is tracked
(simple-server.ts:2194-2201). -/
def noTrackedText : String :=
  "ℹ️ No update set is currently tracked. Records will be created in the default update set."

/-- The `get-current-update-set` handler `getCurrentUpdateSet`
(simple-server.ts:2158-2212).  `fetch` is the outcome of the
`getRecords('sys_update_set', ...)` detail lookup.  When the tracked id
exists: a successful non-empty fetch yields the detailed report; a
thrown fetch is caught by the inner catch, yielding the raw-id report;
a successful EMPTY fetch falls through the `length > 0` guard and out of
the tracked-id block, yielding the "no update set tracked" report. -/
def getCurrentUpdateSetTool (fetch : Except String (List Record))
    (sst : ServerState) : ToolResponse :=
  match sst.currentUpdateSetId with
  | some updateSetId =>
      match fetch with
      | .ok (r :: _) => ⟨[currentDetailText r updateSetId]⟩
      | .ok [] => ⟨[noTrackedText]⟩
      | .error _ => ⟨[currentRawIdText updateSetId]⟩
  | none => ⟨[noTrackedText]⟩

end Server

namespace Server

/-- Arguments of the `update-business-rule` tool
(simple-server.ts:2214-2260).  `operation` is modelled in its
comma-separated string form (the `typeof operations === 'string'`
branch); the updatable fields are optional caller-supplied values. -/
structure UpdateBusinessRuleArgs where
  sys_id : String
  operation : Option String := none
  name : Option Value := none
  table : Option Value := none
  when : Option Value := none
  script : Option Value := none
  description : Option Value := none
  order : Option Value := none
  condition : Option Value := none
  filter_condition : Option Value := none
  advanced : Option Value := none
  active : Option Value := none
  role_conditions : Option Value := none

/-- `p[k] = v` when the optional caller value is supplied (the
`if (args[field] !== undefined)` loop of simple-server.ts:2256-2260). -/
def maybeSetVal (p : Payload) (k : String) (o : Option Value) : Payload :=
  match o with
  | some v => setField p k v
  | none => p

/-- `operations.includes(op)` after `split(',').map(trim)`
(simple-server.ts:2243-2246). -/
def opIncludes (s op : String) : Bool :=
  ((s.splitOn ",").map String.trim).contains op

/-- The `updateData` object built by `updateBusinessRule`
(simple-server.ts:2240-2260): the four operation booleans when
`operation` is supplied, then each provided field of the fixed
`fieldsToUpdate` list in order. -/
def buildBusinessRuleUpdateData (args : UpdateBusinessRuleArgs) : Payload :=
  let d : Payload :=
    match args.operation with
    | some s =>
        [("insert", .bool (opIncludes s "insert")),
         ("update", .bool (opIncludes s "update")),
         ("delete", .bool (opIncludes s "delete")),
         ("query", .bool (opIncludes s "query"))]
    | none => []
  let d := maybeSetVal d "name" args.name
  let d := maybeSetVal d "table" args.table
  let d := maybeSetVal d "when" args.when
  let d := maybeSetVal d "script" args.script
  let d := maybeSetVal d "description" args.description
  let d := maybeSetVal d "order" args.order
  let d := maybeSetVal d "condition" args.condition
  let d := maybeSetVal d "filter_condition" args.filter_condition
  let d := maybeSetVal d "advanced" args.advanced
  let d := maybeSetVal d "active" args.active
  let d := maybeSetVal d "role_conditions" args.role_conditions
  d

/-- The allowed `when` values (simple-server.ts:2233). -/
def validWhenValues : List String := ["before", "after", "async", "display"]

/-- The `update-business-rule` handler (simple-server.ts:2214-2305) up
to the PUT request it issues: validate `sys_id`, fetch the existing
rule, validate `when`, build the update data, apply the session-level
tracking injection `addUpdateSetToRecord` (simple-server.ts:2267-2268),
and hand the result to the client's `updateRecord`
(simple-server.ts:2270-2271). -/
def updateBusinessRuleRequest (fetch : Api.RemoteData) (sst : ServerState)
    (args : UpdateBusinessRuleArgs) : Except String Api.HttpRequest := do
  if args.sys_id = "" then
    throw "sys_id parameter is required for updating business rules"
  let existingRules ← fetch "sys_script" ("sys_id=" ++ args.sys_id)
  if existingRules.isEmpty then
    throw ("Business Rule with sys_id " ++ args.sys_id ++ " not found")
  match args.when with
  | some w =>
      if jsTruthy w then
        match w with
        | .str ws =>
            if validWhenValues.contains ws then pure () else
              throw ("Invalid 'when' value: " ++ ws ++ ". Must be one of: before, after, async, display")
        | _ =>
            throw ("Invalid 'when' value: " ++ renderValue w ++ ". Must be one of: before, after, async, display")
      else pure ()
  | none => pure ()
  let updateData := buildBusinessRuleUpdateData args
  let recordData := addUpdateSetToRecord sst.currentUpdateSetId updateData
  pure (Api.updateRecordRequest "sys_script" args.sys_id recordData)

/-- The tool names accepted by the call-tool dispatcher's `switch`
(simple-server.ts:574-645). -/
def knownToolNames : List String :=
  ["test-connection", "query-records", "create-record", "create-catalog-item",
   "create-record-producer", "create-variable", "create-variable-set",
   "create-ui-policy", "create-catalog-ui-policy",
   "create-catalog-ui-policy-action", "create-script-include",
   "create-scheduled-job", "create-email-notification",
   "create-catalog-client-script", "create-ui-policy-action",
   "create-client-script", "create-business-rule", "update-business-rule",
   "create-table-field", "create-assignment-group",
   "implement-invoice-status-inquiry", "create-update-set",
   "set-current-update-set", "get-current-update-set",
   "create-application-scope", "set-application-scope", "create-flow",
   "create-flow-trigger", "add-create-record-action", "add-send-email-action"]

/-- The error response built by the dispatcher's `catch`
(simple-server.ts:649-659). -/
def dispatchErrorResponse (name msg : String) : ToolResponse :=
  ⟨["Error executing " ++ name ++ ": " ++ msg]⟩

/-- The body of the call-tool handler's `try` block
(simple-server.ts:573-648): dispatch on the tool name to the per-tool
handler (`handle name` models `await this.<handler>(args)`, which may
itself throw), or throw `Unknown tool` for a name outside the switch. -/
def callToolBody (handle : String → Except String ToolResponse)
    (name : String) : Except String ToolResponse :=
  if knownToolNames.contains name then handle name
  else .error ("Unknown tool: " ++ name)

/-- The call-tool dispatcher (simple-server.ts:550-660): the `try`
block's result is returned as-is; any thrown error is caught and
converted into a normal response describing the failure.  The result
type `Except String ToolResponse` is what the transport layer sees: an
`Except.error` would be a protocol-level failure. -/
def dispatchTool (handle : String → Except String ToolResponse)
    (name : String) : Except String ToolResponse :=
  match callToolBody handle name with
  | .ok r => .ok r
  | .error msg => .ok (dispatchErrorResponse name msg)

/-- The session operations modelled in this development that touch the
session controller's state. -/
inductive SessionOp where
  | setCurrent (updateSetId : String)
  | getCurrent
  | updateBusinessRule (args : UpdateBusinessRuleArgs)
  | createRecordTool (table : String) (fields : Payload)

/-- Combined remote environment for a session step. -/
structure SessionEnv where
  remote : Api.RemoteEnv
  fetch : Api.RemoteData

/-- State effect of one session operation on the controller and client
states.  Only `set-current-update-set` writes `currentUpdateSetId`
(simple-server.ts:1904 is its sole assignment besides the `null`
initialiser); the other handlers only read it. -/
def serverStep (env : SessionEnv) (sst : ServerState) (cst : Api.ClientState) :
    SessionOp → ServerState × Api.ClientState
  | .setCurrent updateSetId =>
      let r := setCurrentUpdateSetTool env.remote sst cst updateSetId
      (r.1, r.2.1)
  | .getCurrent => (sst, cst)
  | .updateBusinessRule _ => (sst, cst)
  | .createRecordTool _ _ => (sst, cst)

end Server

section Lemmas

theorem lookupField_setField_self (p : Payload) (k : String) (v : Value) :
    lookupField (setField p k v) k = some v := by
  induction p with
  | nil => simp [setField, lookupField]
  | cons hd tl ih =>
      obtain ⟨k', v'⟩ := hd
      by_cases h : k' = k
      · simp [setField, lookupField, h]
      · simp [setField, lookupField, h, ih]

theorem lookupField_setField_ne (p : Payload) (k k' : String) (v : Value)
    (h : k' ≠ k) : lookupField (setField p k v) k' = lookupField p k' := by
  induction p with
  | nil => simp [setField, lookupField, Ne.symm h]
  | cons hd tl ih =>
      obtain ⟨k₀, v₀⟩ := hd
      by_cases h₀ : k₀ = k
      · subst h₀
        simp [setField, lookupField, Ne.symm h]
      · simp [setField, lookupField, h₀, ih]

theorem truthyField_setField_self (p : Payload) (k : String) (v : Value) :
    truthyField (setField p k v) k = jsTruthy v := by
  simp [truthyField, lookupField_setField_self]

theorem lookupField_maybeSetStr_ne (p : Payload) (k k' : String)
    (o : Option String) (h : k' ≠ k) :
    lookupField (Api.maybeSetStr p k o) k' = lookupField p k' := by
  cases o with
  | none => rfl
  | some s => simpa [Api.maybeSetStr] using lookupField_setField_ne p k k' (.str s) h

theorem lookupField_clearedStep_ne (p : Payload) (k' : String)
    (o : Option String) (h : k' ≠ "cleared") :
    lookupField (Api.clearedStep p o) k' = lookupField p k' := by
  cases o with
  | none => rfl
  | some va => simpa [Api.clearedStep] using lookupField_setField_ne p "cleared" k' _ h

theorem lookupField_defaultValueStep_ne (p : Payload) (k' : String)
    (v va : Option String) (h : k' ≠ "default_value") :
    lookupField (Api.defaultValueStep p v va) k' = lookupField p k' := by
  cases v with
  | none => cases va <;> rfl
  | some s =>
      cases va with
      | none => rfl
      | some act =>
          by_cases hact : act = "set_value"
          · simpa [Api.defaultValueStep, hact] using
              lookupField_setField_ne p "default_value" k' (.str s) h
          · simp [Api.defaultValueStep, hact]

theorem lookupField_maybeSetVal_ne (p : Payload) (k k' : String)
    (o : Option Value) (h : k' ≠ k) :
    lookupField (Server.maybeSetVal p k o) k' = lookupField p k' := by
  cases o with
  | none => rfl
  | some v => simpa [Server.maybeSetVal] using lookupField_setField_ne p k k' v h

end Lemmas

/-- A string occurs inside another (as a contiguous substring). -/
def strContains (s t : String) : Prop := t.data <:+: s.data

theorem strContains_middle (a b c : String) : strContains (a ++ b ++ c) b :=
  ⟨a.data, c.data, by simp [strContains]⟩

instance (s t : String) : Decidable (strContains s t) :=
  inferInstanceAs (Decidable (t.data <:+: s.data))

theorem strContains_append_left (a b t : String) (h : strContains a t) :
    strContains (a ++ b) t := by
  obtain ⟨pre, post, hp⟩ := h
  exact ⟨pre, post ++ b.data, by simp [← hp]⟩

/-- C1, counterexample: the claim says a payload already carrying
`sys_update_set = v` with `v ≠ s` is transmitted with `v` unchanged, for
every such `v`.  For the empty-string value `v = ""` (which differs from
the tracked id `"us123"`), JavaScript truthiness makes the guard
`!data.sys_update_set` succeed, and both injection points overwrite it
with the tracked id. -/
theorem C1_counterexample :
    lookupField [("sys_update_set", Value.str "")] "sys_update_set" = some (Value.str "") ∧
    ("" : String) ≠ "us123" ∧
    Api.injectUpdateSet (some "us123") [("sys_update_set", Value.str "")] =
      [("sys_update_set", Value.str "us123")] ∧
    Server.addUpdateSetToRecord (some "us123") [("sys_update_set", Value.str "")] =
      [("sys_update_set", Value.str "us123")] := by
  refine ⟨rfl, by decide, by decide, by decide⟩

/-- C1, amended: for every payload `p` and tracked non-empty id `s`,
both injection points (the client `createRecord` pre-step and the
server-level `addUpdateSetToRecord`) inject `sys_update_set = s` when
the field is absent; a payload already carrying a NON-EMPTY
`sys_update_set = v` is transmitted with `v` unchanged (an empty-string
value is treated as absent and overwritten); injection is idempotent;
and the two injection points compute the same function. -/
theorem C1_injection_idempotent_no_overwrite (s : String) (p : Payload) (hs : s ≠ "") :
    (lookupField p "sys_update_set" = none →
       lookupField (Api.injectUpdateSet (some s) p) "sys_update_set" = some (Value.str s) ∧
       lookupField (Server.addUpdateSetToRecord (some s) p) "sys_update_set" = some (Value.str s)) ∧
    (∀ v : String, lookupField p "sys_update_set" = some (Value.str v) → v ≠ "" →
       Api.injectUpdateSet (some s) p = p ∧
       Server.addUpdateSetToRecord (some s) p = p) ∧
    (∀ (c : Option String) (q : Payload),
       Api.injectUpdateSet c (Api.injectUpdateSet c q) = Api.injectUpdateSet c q) ∧
    (∀ (c : Option String) (q : Payload),
       Server.addUpdateSetToRecord c q = Api.injectUpdateSet c q) := by
  refine ⟨?_, ?_, ?_, ?_⟩
  · intro h
    have ht : truthyField p "sys_update_set" = false := by simp [truthyField, h]
    constructor
    · simp [Api.injectUpdateSet, ht, hs, lookupField_setField_self]
    · simp [Server.addUpdateSetToRecord, ht, hs, lookupField_setField_self]
  · intro v hv hvne
    have ht : truthyField p "sys_update_set" = true := by
      simp [truthyField, hv, jsTruthy, hvne]
    constructor
    · simp [Api.injectUpdateSet, ht]
    · simp [Server.addUpdateSetToRecord, ht]
  · intro c q
    cases c with
    | none => rfl
    | some t =>
        by_cases htr : t = ""
        · simp [Api.injectUpdateSet, htr]
        · by_cases hq : truthyField q "sys_update_set"
          · simp [Api.injectUpdateSet, hq]
          · simp [Api.injectUpdateSet, hq, htr, truthyField_setField_self, jsTruthy]
  · intro c q
    cases c <;> rfl

/-- C1, witness: the amended theorem applied at the tracked id
`"us123"` and a payload without a tracking field. -/
theorem C1_witness :
    lookupField (Api.injectUpdateSet (some "us123") [("name", Value.str "x")]) "sys_update_set" =
      some (Value.str "us123") :=
  ((C1_injection_idempotent_no_overwrite "us123" [("name", Value.str "x")]
      (by decide)).1 (by decide)).1

set_option maxRecDepth 8192 in
/-- C2, counterexample: the claim says that after `setCurrentUpdateSet(s)`
a subsequent `getCurrent` reports `s`.  After tracking `"us1"` (remote
negotiation succeeding), a `getCurrent` whose detail fetch succeeds with
ZERO rows falls through the `length > 0` guard and reports "no update
set is currently tracked", which does not mention `"us1"` — even though
the id is still tracked locally. -/
theorem C2_counterexample :
    (Server.setCurrentUpdateSetTool
        ⟨Except.ok [[("sys_id", Value.str "u1")]], Except.ok [], Except.ok (), Except.ok ()⟩
        ⟨none⟩ ⟨none⟩ "us1").1.currentUpdateSetId = some "us1" ∧
    Server.getCurrentUpdateSetTool (Except.ok [])
      (Server.setCurrentUpdateSetTool
        ⟨Except.ok [[("sys_id", Value.str "u1")]], Except.ok [], Except.ok (), Except.ok ()⟩
        ⟨none⟩ ⟨none⟩ "us1").1 = ⟨[Server.noTrackedText]⟩ ∧
    ¬ strContains Server.noTrackedText "us1" := by
  refine ⟨rfl, rfl, by decide⟩

/-- C2, amended: after any `setCurrentUpdateSet(s)` call — whether the
remote user-preference negotiation succeeds or fails — the client's
`currentUpdateSetId` and the session controller's tracked id both equal
`s`; a subsequent `getCurrent` reports `s` when the detail fetch throws
or returns at least one row (but a successful fetch with zero rows
reports "no update set tracked" despite the still-tracked id); and no
modelled session operation ever clears a tracked id — it is unchanged or
replaced by the id of a later `setCurrent`. -/
theorem C2_local_tracking_always_set (env : Api.RemoteEnv)
    (sst : Server.ServerState) (cst : Api.ClientState) (s : String) :
    (Api.setCurrentUpdateSet env cst s).1.currentUpdateSetId = some s ∧
    (Server.setCurrentUpdateSetTool env sst cst s).1.currentUpdateSetId = some s ∧
    (Server.setCurrentUpdateSetTool env sst cst s).2.1.currentUpdateSetId = some s ∧
    (∀ e : String,
       Server.getCurrentUpdateSetTool (Except.error e)
           (Server.setCurrentUpdateSetTool env sst cst s).1 =
         ⟨[Server.currentRawIdText s]⟩ ∧
       strContains (Server.currentRawIdText s) s) ∧
    (∀ (r : Record) (rest : List Record),
       Server.getCurrentUpdateSetTool (Except.ok (r :: rest))
           (Server.setCurrentUpdateSetTool env sst cst s).1 =
         ⟨[Server.currentDetailText r s]⟩ ∧
       strContains (Server.currentDetailText r s) s) ∧
    (∀ (senv : Server.SessionEnv) (sst' : Server.ServerState)
       (cst' : Api.ClientState) (op : Server.SessionOp),
       ((Server.serverStep senv sst' cst' op).1.currentUpdateSetId =
           sst'.currentUpdateSetId ∧
        (Server.serverStep senv sst' cst' op).2.currentUpdateSetId =
           cst'.currentUpdateSetId) ∨
       (∃ newId : String, op = Server.SessionOp.setCurrent newId ∧
        (Server.serverStep senv sst' cst' op).1.currentUpdateSetId = some newId ∧
        (Server.serverStep senv sst' cst' op).2.currentUpdateSetId = some newId)) := by
  have hclient : ∀ (e : Api.RemoteEnv) (c : Api.ClientState) (x : String),
      (Api.setCurrentUpdateSet e c x).1.currentUpdateSetId = some x := by
    intro e c x
    unfold Api.setCurrentUpdateSet
    cases Api.preferenceNegotiation e <;> rfl
  refine ⟨hclient env cst s, rfl, hclient env cst s, ?_, ?_, ?_⟩
  · intro e
    constructor
    · rfl
    · have : Server.currentRawIdText s =
          "✅ Current tracked update set ID: " ++ s ++
          ("\n" ++ "Note: This update set is being applied to all record creations in this session.") := by
        simp [Server.currentRawIdText, String.append_assoc]
      rw [this]
      exact strContains_middle _ s _
  · intro r rest
    constructor
    · rfl
    · have : Server.currentDetailText r s =
          ("✅ Current tracked update set:\n" ++ "Name: " ++ fieldAsString r "name" ++ "\n" ++
           "Description: " ++ fieldDisplay r "description" "None" ++ "\n" ++
           "State: " ++ fieldAsString r "state" ++ "\n" ++ "ID: ") ++ s ++
          ("\n" ++ "Note: This update set is being applied to all record creations in this session.") := by
        simp [Server.currentDetailText, String.append_assoc]
      rw [this]
      exact strContains_middle _ s _
  · intro senv sst' cst' op
    cases op with
    | setCurrent newId =>
        exact Or.inr ⟨newId, rfl, rfl, hclient senv.remote cst' newId⟩
    | getCurrent => exact Or.inl ⟨rfl, rfl⟩
    | updateBusinessRule a => exact Or.inl ⟨rfl, rfl⟩
    | createRecordTool t f => exact Or.inl ⟨rfl, rfl⟩

/-- C3, counterexample: the claim says the `set-current-update-set`
report distinguishes "remote preference confirmed" from "remote
preference failed".  With a succeeding environment and with one whose
user lookup throws a 403, the client-level outcomes differ (ok versus
error), yet the tool returns the exact same report text. -/
theorem C3_counterexample :
    (Api.setCurrentUpdateSet
        ⟨Except.ok [[("sys_id", Value.str "u1")]], Except.ok [], Except.ok (), Except.ok ()⟩
        ⟨none⟩ "us123").2 = Except.ok () ∧
    (Api.setCurrentUpdateSet
        ⟨Except.error "Request failed with status code 403", Except.ok [], Except.ok (), Except.ok ()⟩
        ⟨none⟩ "us123").2 = Except.error "Request failed with status code 403" ∧
    (Server.setCurrentUpdateSetTool
        ⟨Except.ok [[("sys_id", Value.str "u1")]], Except.ok [], Except.ok (), Except.ok ()⟩
        ⟨none⟩ ⟨none⟩ "us123").2.2 =
      (Server.setCurrentUpdateSetTool
        ⟨Except.error "Request failed with status code 403", Except.ok [], Except.ok (), Except.ok ()⟩
        ⟨none⟩ ⟨none⟩ "us123").2.2 := by
  refine ⟨rfl, rfl, rfl⟩

set_option maxRecDepth 16384 in
/-- C3, amended: the `set-current-update-set` tool returns a success
response in every remote outcome, but the response is the SAME
unconditional report in both the remote-preference-confirmed and the
remote-preference-failed case — it notes the id and that tracking is by
direct field assignment; the failure detail is only logged, never
reported.  Both outcomes are success responses from the caller's
perspective. -/
theorem C3_setCurrent_report_uniform (env env' : Api.RemoteEnv)
    (sst sst' : Server.ServerState) (cst cst' : Api.ClientState) (s : String) :
    (Server.setCurrentUpdateSetTool env sst cst s).2.2 =
      ⟨[Server.setCurrentSuccessText s]⟩ ∧
    (Server.setCurrentUpdateSetTool env sst cst s).2.2 =
      (Server.setCurrentUpdateSetTool env' sst' cst' s).2.2 ∧
    strContains (Server.setCurrentSuccessText s) s ∧
    strContains (Server.setCurrentSuccessText s) "Update set tracked for this session" := by
  refine ⟨rfl, rfl, ?_, ?_⟩
  · have : Server.setCurrentSuccessText s =
        ("✅ Update set tracked for this session. All subsequent record creations will be associated with this update set.\n" ++
         "Update Set ID: ") ++ s ++
        ("\n" ++ "Note: Due to REST API limitations, we set the sys_update_set field directly on each record rather than changing the session preference.") := by
      simp [Server.setCurrentSuccessText, String.append_assoc]
    rw [this]
    exact strContains_middle _ s _
  · show strContains
      ("✅ Update set tracked for this session. All subsequent record creations will be associated with this update set.\n" ++
        "Update Set ID: " ++ s ++ "\n" ++
        "Note: Due to REST API limitations, we set the sys_update_set field directly on each record rather than changing the session preference.")
      "Update set tracked for this session"
    refine strContains_append_left _ _ _ (strContains_append_left _ _ _
      (strContains_append_left _ _ _ (strContains_append_left _ _ _ ?_)))
    decide

/-- C4, counterexample: the claim says every boolean flag defaults to
`true` when omitted.  `createScheduledJob` builds
`conditional: params.conditional || false`, so with `conditional`
omitted the payload carries `conditional = false`; likewise
`createCatalogUIPolicy` defaults `applies_on_requested_items`,
`applies_on_catalog_tasks`, `applies_on_target_record` and
`reverse_if_false` to `false`. -/
theorem C4_counterexample :
    lookupField (Api.createScheduledJobData { name := "n", script := "s" })
        "conditional" = some (Value.bool false) ∧
    lookupField (Api.createCatalogUIPolicyData { name := "p" })
        "applies_req_item" = some (Value.bool false) ∧
    lookupField (Api.createCatalogUIPolicyData { name := "p" })
        "reverse_if_false" = some (Value.bool false) := by
  refine ⟨rfl, rfl, rfl⟩

/-- C4, amended: in the per-record-type create helpers, the flags
handled with the `params.x !== false` idiom (`active`, `on_load`,
`applies_on_catalog_item_view`) default to `true` when omitted, while
the flags handled with `params.x || false` (`conditional`,
`applies_on_requested_items`, `applies_on_catalog_tasks`,
`applies_on_target_record`, `reverse_if_false`) default to `false` when
omitted; under both idioms an explicitly supplied `true` stays `true`
and an explicitly supplied `false` stays `false` (`createUIPolicy`'s
`active` is unconditionally `true`). -/
theorem C4_boolean_flag_defaults (scope : String)
    (p1 : Api.ScriptIncludeParams) (p2 : Api.ScheduledJobParams)
    (p3 : Api.EmailNotificationParams) (p4 : Api.CatalogClientScriptParams)
    (t n c : String) (o : Api.UIPolicyOptions)
    (p5 : Api.CatalogUIPolicyParams) (p6 : Api.FlowParams) :
    lookupField (Api.createScriptIncludeData scope p1) "active" =
      some (Value.bool (jsNeqFalse p1.active)) ∧
    lookupField (Api.createScheduledJobData p2) "active" =
      some (Value.bool (jsNeqFalse p2.active)) ∧
    lookupField (Api.createScheduledJobData p2) "conditional" =
      some (Value.bool (jsOrFalse p2.conditional)) ∧
    lookupField (Api.createEmailNotificationData p3) "active" =
      some (Value.bool (jsNeqFalse p3.active)) ∧
    lookupField (Api.createCatalogClientScriptData p4) "active" =
      some (Value.bool (jsNeqFalse p4.active)) ∧
    lookupField (Api.createUIPolicyData t n c o) "active" =
      some (Value.bool true) ∧
    lookupField (Api.createUIPolicyData t n c o) "on_load" =
      some (Value.bool (jsNeqFalse o.on_load)) ∧
    lookupField (Api.createCatalogUIPolicyData p5) "active" =
      some (Value.bool (jsNeqFalse p5.active)) ∧
    lookupField (Api.createCatalogUIPolicyData p5) "applies_catalog" =
      some (Value.bool (jsNeqFalse p5.applies_on_catalog_item_view)) ∧
    lookupField (Api.createCatalogUIPolicyData p5) "applies_req_item" =
      some (Value.bool (jsOrFalse p5.applies_on_requested_items)) ∧
    lookupField (Api.createCatalogUIPolicyData p5) "applies_sc_task" =
      some (Value.bool (jsOrFalse p5.applies_on_catalog_tasks)) ∧
    lookupField (Api.createCatalogUIPolicyData p5) "applies_target_record" =
      some (Value.bool (jsOrFalse p5.applies_on_target_record)) ∧
    lookupField (Api.createCatalogUIPolicyData p5) "on_load" =
      some (Value.bool (jsNeqFalse p5.on_load)) ∧
    lookupField (Api.createCatalogUIPolicyData p5) "reverse_if_false" =
      some (Value.bool (jsOrFalse p5.reverse_if_false)) ∧
    lookupField (Api.createFlowData scope p6) "active" =
      some (Value.bool (jsNeqFalse p6.active)) ∧
    jsNeqFalse (some true) = true ∧ jsNeqFalse (some false) = false ∧
    jsNeqFalse none = true ∧ jsOrFalse (some true) = true ∧
    jsOrFalse (some false) = false ∧ jsOrFalse none = false := by
  refine ⟨rfl, rfl, rfl, rfl, rfl, rfl, rfl, rfl, rfl, rfl, rfl, rfl, rfl, rfl, rfl,
    rfl, rfl, rfl, rfl, rfl, rfl⟩

/-- Remote environment for the C5 scenario: UI policy `pol1` points at
catalog item `cat1`, which holds the three variables `alpha`, `beta`,
`gamma` but nothing named `nonexistent_var`. -/
def envC5 : Api.RemoteData := fun table query =>
  if table = "catalog_ui_policy" && query = "sys_id=pol1" then
    .ok [[("sys_id", .str "pol1"), ("catalog_item", .str "cat1")]]
  else if table = "item_option_new" && query = "cat_item=cat1^name=nonexistent_var" then
    .ok []
  else if table = "item_option_new" && query = "cat_item=cat1" then
    .ok [[("name", .str "alpha"), ("sys_id", .str "v1")],
         [("name", .str "beta"), ("sys_id", .str "v2")],
         [("name", .str "gamma"), ("sys_id", .str "v3")]]
  else .ok []

set_option maxRecDepth 16384 in
/-- C5, counterexample: the claim says the not-found error message
enumerates the names of the variables that do exist.  With three
variables `alpha`, `beta`, `gamma` under `cat1` and a search for
`nonexistent_var`, the thrown message reports only the count (3) — none
of the three names occurs in it (they are only written to the log). -/
theorem C5_counterexample :
    Api.createCatalogUIPolicyActionCore envC5
        { catalog_ui_policy := "pol1", variable_name := "nonexistent_var" } =
      .error "Variable 'nonexistent_var' not found in catalog item cat1. Found 3 total variables." ∧
    ¬ strContains
        "Variable 'nonexistent_var' not found in catalog item cat1. Found 3 total variables."
        "alpha" ∧
    ¬ strContains
        "Variable 'nonexistent_var' not found in catalog item cat1. Found 3 total variables."
        "beta" ∧
    ¬ strContains
        "Variable 'nonexistent_var' not found in catalog item cat1. Found 3 total variables."
        "gamma" := by
  refine ⟨rfl, by decide, by decide, by decide⟩

/-- C5, amended: when zero variables match the given name under the
resolved catalog item, `createCatalogUIPolicyAction` fails with an error
whose message reports the searched variable name, the catalog item id
and the COUNT of variables that exist under that item — the list of
their names is only emitted to the diagnostic log, not carried in the
message. -/
theorem C5_variable_not_found_reports_count (env : Api.RemoteData)
    (p : Api.CatalogUIPolicyActionParams) (catalogItemId : String)
    (allVars : List Record)
    (hnone : env "item_option_new"
        ("cat_item=" ++ catalogItemId ++ "^name=" ++ p.variable_name) = .ok [])
    (hall : env "item_option_new" ("cat_item=" ++ catalogItemId) = .ok allVars) :
    Api.afterResolve env p catalogItemId =
      .error ("Variable '" ++ p.variable_name ++ "' not found in catalog item " ++
        catalogItemId ++ ". Found " ++ toString allVars.length ++ " total variables.") := by
  simp only [Api.afterResolve, hnone, hall]
  rfl

/-- C5, witness: the amended theorem applied to the concrete C5
environment. -/
theorem C5_witness :
    Api.afterResolve envC5
        { catalog_ui_policy := "pol1", variable_name := "nonexistent_var" } "cat1" =
      .error ("Variable '" ++ "nonexistent_var" ++ "' not found in catalog item " ++
        "cat1" ++ ". Found " ++ toString (3 : Nat) ++ " total variables.") := by
  have h := C5_variable_not_found_reports_count envC5
    { catalog_ui_policy := "pol1", variable_name := "nonexistent_var" } "cat1"
    [[("name", .str "alpha"), ("sys_id", .str "v1")],
     [("name", .str "beta"), ("sys_id", .str "v2")],
     [("name", .str "gamma"), ("sys_id", .str "v3")]]
    rfl rfl
  simpa using h

theorem lookupField_maybeSetStr_self (p : Payload) (k s : String) :
    lookupField (Api.maybeSetStr p k (some s)) k = some (.str s) := by
  simp [Api.maybeSetStr, lookupField_setField_self]

theorem lookupField_clearedStep_self (p : Payload) (va : String) :
    lookupField (Api.clearedStep p (some va)) "cleared" =
      some (.str (if va = "clear_value" then "true" else "false")) := by
  simp [Api.clearedStep, lookupField_setField_self]

/-- C6: the action payload built by `createCatalogUIPolicyAction` maps
caller fields to remote fields exactly as claimed: `mandatory` and
`visible` pass through under their own names, `read_only` is renamed to
`disabled`, a supplied `value_action` yields the string
`cleared = "true"` exactly for `'clear_value'` and `"false"` for any
other value, `field_message_type` maps to `help_tag` and
`field_message` to `help_text`; the three identity fields are
`ui_policy` (the policy sys-id), `catalog_variable` (the `IO:`-prefixed
variable sys-id) and `variable` (the variable name). -/
theorem C6_action_field_mapping (p : Api.CatalogUIPolicyActionParams) (vid : String) :
    lookupField (Api.buildCatalogUIPolicyActionData p vid) "ui_policy" =
      some (.str p.catalog_ui_policy) ∧
    lookupField (Api.buildCatalogUIPolicyActionData p vid) "catalog_variable" =
      some (.str ("IO:" ++ vid)) ∧
    lookupField (Api.buildCatalogUIPolicyActionData p vid) "variable" =
      some (.str p.variable_name) ∧
    (∀ m, p.mandatory = some m →
      lookupField (Api.buildCatalogUIPolicyActionData p vid) "mandatory" = some (.str m)) ∧
    (∀ v, p.visible = some v →
      lookupField (Api.buildCatalogUIPolicyActionData p vid) "visible" = some (.str v)) ∧
    (∀ r, p.read_only = some r →
      lookupField (Api.buildCatalogUIPolicyActionData p vid) "disabled" = some (.str r)) ∧
    (∀ va, p.value_action = some va →
      lookupField (Api.buildCatalogUIPolicyActionData p vid) "cleared" =
        some (.str (if va = "clear_value" then "true" else "false"))) ∧
    (∀ t, p.field_message_type = some t →
      lookupField (Api.buildCatalogUIPolicyActionData p vid) "help_tag" = some (.str t)) ∧
    (∀ m, p.field_message = some m →
      lookupField (Api.buildCatalogUIPolicyActionData p vid) "help_text" = some (.str m)) := by
  refine ⟨?_, ?_, ?_, ?_, ?_, ?_, ?_, ?_, ?_⟩
  · simp [Api.buildCatalogUIPolicyActionData, lookupField_maybeSetStr_ne,
      lookupField_clearedStep_ne, lookupField_defaultValueStep_ne, lookupField]
  · simp [Api.buildCatalogUIPolicyActionData, lookupField_maybeSetStr_ne,
      lookupField_clearedStep_ne, lookupField_defaultValueStep_ne, lookupField]
  · simp [Api.buildCatalogUIPolicyActionData, lookupField_maybeSetStr_ne,
      lookupField_clearedStep_ne, lookupField_defaultValueStep_ne, lookupField]
  · intro m hm
    simp [Api.buildCatalogUIPolicyActionData, lookupField_maybeSetStr_ne,
      lookupField_clearedStep_ne, lookupField_defaultValueStep_ne, hm,
      lookupField_maybeSetStr_self]
  · intro v hv
    simp [Api.buildCatalogUIPolicyActionData, lookupField_maybeSetStr_ne,
      lookupField_clearedStep_ne, lookupField_defaultValueStep_ne, hv,
      lookupField_maybeSetStr_self]
  · intro r hr
    simp [Api.buildCatalogUIPolicyActionData, lookupField_maybeSetStr_ne,
      lookupField_clearedStep_ne, lookupField_defaultValueStep_ne, hr,
      lookupField_maybeSetStr_self]
  · intro va hva
    simp [Api.buildCatalogUIPolicyActionData, lookupField_maybeSetStr_ne,
      lookupField_defaultValueStep_ne, hva, lookupField_clearedStep_self]
  · intro t ht
    simp [Api.buildCatalogUIPolicyActionData, lookupField_maybeSetStr_ne, ht,
      lookupField_maybeSetStr_self]
  · intro m hm
    simp [Api.buildCatalogUIPolicyActionData, hm, lookupField_maybeSetStr_self]

/-- C6, witness: the mapping at the claim's concrete input
(`mandatory "true"`, `visible "false"`, `read_only "true"`,
`value_action "clear_value"`) yields `mandatory "true"`,
`visible "false"`, `disabled "true"`, `cleared "true"`. -/
theorem C6_witness :
    lookupField (Api.buildCatalogUIPolicyActionData
        { catalog_ui_policy := "pol1", variable_name := "var1",
          mandatory := some "true", visible := some "false",
          read_only := some "true", value_action := some "clear_value" } "v42")
      "mandatory" = some (.str "true") ∧
    lookupField (Api.buildCatalogUIPolicyActionData
        { catalog_ui_policy := "pol1", variable_name := "var1",
          mandatory := some "true", visible := some "false",
          read_only := some "true", value_action := some "clear_value" } "v42")
      "visible" = some (.str "false") ∧
    lookupField (Api.buildCatalogUIPolicyActionData
        { catalog_ui_policy := "pol1", variable_name := "var1",
          mandatory := some "true", visible := some "false",
          read_only := some "true", value_action := some "clear_value" } "v42")
      "disabled" = some (.str "true") ∧
    lookupField (Api.buildCatalogUIPolicyActionData
        { catalog_ui_policy := "pol1", variable_name := "var1",
          mandatory := some "true", visible := some "false",
          read_only := some "true", value_action := some "clear_value" } "v42")
      "cleared" = some (.str "true") := by
  have h := C6_action_field_mapping
    { catalog_ui_policy := "pol1", variable_name := "var1",
      mandatory := some "true", visible := some "false",
      read_only := some "true", value_action := some "clear_value" } "v42"
  refine ⟨h.2.2.2.1 "true" rfl, h.2.2.2.2.1 "false" rfl, h.2.2.2.2.2.1 "true" rfl, ?_⟩
  have hc := h.2.2.2.2.2.2.1 "clear_value" rfl
  simpa using hc

/-- An environment in which the UI-policy fetch returns the single given
policy record and all other reads are served by `varEnv`. -/
def envWithPolicy (pol : Record) (varEnv : Api.RemoteData) : Api.RemoteData :=
  fun table query =>
    if table = "catalog_ui_policy" then .ok [pol] else varEnv table query

theorem afterResolve_congr (env1 env2 : Api.RemoteData)
    (p : Api.CatalogUIPolicyActionParams) (cid : String)
    (h : ∀ q, env1 "item_option_new" q = env2 "item_option_new" q) :
    Api.afterResolve env1 p cid = Api.afterResolve env2 p cid := by
  unfold Api.afterResolve
  simp only [h]

theorem core_envWithPolicy (varEnv : Api.RemoteData) (pol : Record)
    (p : Api.CatalogUIPolicyActionParams) (cid : String)
    (hres : Api.resolveCatalogItemId pol = .ok cid) :
    Api.createCatalogUIPolicyActionCore (envWithPolicy pol varEnv) p =
      Api.afterResolve varEnv p cid := by
  have henv : envWithPolicy pol varEnv "catalog_ui_policy"
      ("sys_id=" ++ p.catalog_ui_policy) = .ok [pol] := by
    simp [envWithPolicy]
  have hvar : ∀ q, envWithPolicy pol varEnv "item_option_new" q =
      varEnv "item_option_new" q := by
    intro q
    simp [envWithPolicy]
  simp only [Api.createCatalogUIPolicyActionCore, henv, hres, bind, Except.bind]
  exact afterResolve_congr _ _ _ _ hvar

/-- C7: `createCatalogUIPolicyAction` resolves the UI policy's
catalog-item reference to the same identifier whether the fetched
policy record carries it as the bare string `id` or as the wrapped
structure `\x7b value: id \x7d`, and with the remaining remote reads
fixed the whole operation computes the same result in both cases. -/
theorem C7_reference_shape_tolerance (varEnv : Api.RemoteData)
    (p : Api.CatalogUIPolicyActionParams) (id : String) (hid : id ≠ "") :
    Api.resolveCatalogItemId [("catalog_item", .str id)] = .ok id ∧
    Api.resolveCatalogItemId [("catalog_item", .obj [("value", id)])] = .ok id ∧
    Api.createCatalogUIPolicyActionCore
        (envWithPolicy [("catalog_item", .str id)] varEnv) p =
      Api.createCatalogUIPolicyActionCore
        (envWithPolicy [("catalog_item", .obj [("value", id)])] varEnv) p := by
  have h1 : Api.resolveCatalogItemId [("catalog_item", .str id)] = .ok id := by
    simp [Api.resolveCatalogItemId, lookupField, jsTruthy, Api.refValue, renderValue, hid]
  have h2 : Api.resolveCatalogItemId [("catalog_item", .obj [("value", id)])] = .ok id := by
    simp [Api.resolveCatalogItemId, lookupField, jsTruthy, Api.refValue, renderValue,
      lookupPairs, hid]
  refine ⟨h1, h2, ?_⟩
  rw [core_envWithPolicy varEnv _ p id h1, core_envWithPolicy varEnv _ p id h2]

/-- C7, witness: the tolerance theorem applied at the claim's concrete
identifier `"abc123"`. -/
theorem C7_witness :
    Api.createCatalogUIPolicyActionCore
        (envWithPolicy [("catalog_item", .str "abc123")] (fun _ _ => .ok []))
        { catalog_ui_policy := "pol1", variable_name := "var1" } =
      Api.createCatalogUIPolicyActionCore
        (envWithPolicy [("catalog_item", .obj [("value", "abc123")])] (fun _ _ => .ok []))
        { catalog_ui_policy := "pol1", variable_name := "var1" } :=
  (C7_reference_shape_tolerance (fun _ _ => .ok [])
    { catalog_ui_policy := "pol1", variable_name := "var1" } "abc123" (by decide)).2.2

set_option maxRecDepth 16384 in
/-- C8, counterexample: the claim says that whenever a tracked id
exists, `getCurrent` reports that id.  With `"us42"` tracked and the
detail fetch SUCCEEDING with zero rows, the handler falls through the
`length > 0` guard and returns the "no update set is currently tracked"
report, which does not mention `"us42"`. -/
theorem C8_counterexample :
    Server.getCurrentUpdateSetTool (Except.ok []) ⟨some "us42"⟩ =
      ⟨[Server.noTrackedText]⟩ ∧
    ¬ strContains Server.noTrackedText "us42" :=
  ⟨rfl, by decide⟩

/-- C8, amended: when a tracked id exists, `getCurrent` reports the
descriptive record on a successful non-empty detail fetch and still
reports the raw tracked id when the fetch throws (never escalating the
failure); when no id is tracked it reports "no update set tracked" as a
normal result; but when the fetch succeeds with zero rows it reports
"no update set tracked" even though an id is tracked. -/
theorem C8_getCurrent_reporting (sst : Server.ServerState) (updateSetId : String)
    (h : sst.currentUpdateSetId = some updateSetId) :
    (∀ e : String, Server.getCurrentUpdateSetTool (Except.error e) sst =
        ⟨[Server.currentRawIdText updateSetId]⟩ ∧
      strContains (Server.currentRawIdText updateSetId) updateSetId) ∧
    (∀ (r : Record) (rest : List Record),
      Server.getCurrentUpdateSetTool (Except.ok (r :: rest)) sst =
        ⟨[Server.currentDetailText r updateSetId]⟩ ∧
      strContains (Server.currentDetailText r updateSetId) updateSetId) ∧
    Server.getCurrentUpdateSetTool (Except.ok []) sst = ⟨[Server.noTrackedText]⟩ ∧
    (∀ (fetch : Except String (List Record)) (sst' : Server.ServerState),
      sst'.currentUpdateSetId = none →
      Server.getCurrentUpdateSetTool fetch sst' = ⟨[Server.noTrackedText]⟩) := by
  refine ⟨?_, ?_, ?_, ?_⟩
  · intro e
    constructor
    · simp [Server.getCurrentUpdateSetTool, h]
    · have : Server.currentRawIdText updateSetId =
          "✅ Current tracked update set ID: " ++ updateSetId ++
          ("\n" ++ "Note: This update set is being applied to all record creations in this session.") := by
        simp [Server.currentRawIdText, String.append_assoc]
      rw [this]
      exact strContains_middle _ updateSetId _
  · intro r rest
    constructor
    · simp [Server.getCurrentUpdateSetTool, h]
    · have : Server.currentDetailText r updateSetId =
          ("✅ Current tracked update set:\n" ++ "Name: " ++ fieldAsString r "name" ++ "\n" ++
           "Description: " ++ fieldDisplay r "description" "None" ++ "\n" ++
           "State: " ++ fieldAsString r "state" ++ "\n" ++ "ID: ") ++ updateSetId ++
          ("\n" ++ "Note: This update set is being applied to all record creations in this session.") := by
        simp [Server.currentDetailText, String.append_assoc]
      rw [this]
      exact strContains_middle _ updateSetId _
  · simp [Server.getCurrentUpdateSetTool, h]
  · intro fetch sst' h'
    simp [Server.getCurrentUpdateSetTool, h']

/-- C8, witness: the amended theorem applied at the tracked id `"us7"`
with a throwing detail fetch. -/
theorem C8_witness :
    Server.getCurrentUpdateSetTool (Except.error "Request failed with status code 500")
        (⟨some "us7"⟩ : Server.ServerState) = ⟨[Server.currentRawIdText "us7"]⟩ :=
  ((C8_getCurrent_reporting ⟨some "us7"⟩ "us7" rfl).1
    "Request failed with status code 500").1

/-- C9: for every tool name and every handler outcome, the call-tool
dispatcher returns a normal (`ok`) response: a thrown handler error is
converted into a response whose text describes the failure, an unknown
tool name yields the `Unknown tool` failure text, and a successful
handler result is passed through — no exception reaches the transport
layer as a protocol-level error. -/
theorem C9_dispatcher_never_protocol_error
    (handle : String → Except String Server.ToolResponse) (name : String) :
    (∃ r : Server.ToolResponse, Server.dispatchTool handle name = .ok r) ∧
    (∀ m : String, Server.knownToolNames.contains name = true →
      handle name = .error m →
      Server.dispatchTool handle name = .ok (Server.dispatchErrorResponse name m)) ∧
    (∀ r : Server.ToolResponse, Server.knownToolNames.contains name = true →
      handle name = .ok r → Server.dispatchTool handle name = .ok r) ∧
    (Server.knownToolNames.contains name = false →
      Server.dispatchTool handle name =
        .ok (Server.dispatchErrorResponse name ("Unknown tool: " ++ name))) := by
  refine ⟨?_, ?_, ?_, ?_⟩
  · match hh : Server.callToolBody handle name with
    | .ok r => exact ⟨r, by simp [Server.dispatchTool, hh]⟩
    | .error m => exact ⟨Server.dispatchErrorResponse name m, by simp [Server.dispatchTool, hh]⟩
  · intro m hk hm
    have hk' : name ∈ Server.knownToolNames := by simpa using hk
    simp [Server.dispatchTool, Server.callToolBody, hk', hm]
  · intro r hk hr
    have hk' : name ∈ Server.knownToolNames := by simpa using hk
    simp [Server.dispatchTool, Server.callToolBody, hk', hr]
  · intro hk
    have hk' : name ∉ Server.knownToolNames := by simpa using hk
    simp [Server.dispatchTool, Server.callToolBody, hk']

/-- C9, witness: the dispatcher applied to a handler that throws and to
an unknown tool name. -/
theorem C9_witness :
    Server.dispatchTool (fun _ => .error "boom") "definitely-not-a-tool" =
      .ok (Server.dispatchErrorResponse "definitely-not-a-tool"
        ("Unknown tool: " ++ "definitely-not-a-tool")) :=
  (C9_dispatcher_never_protocol_error (fun _ => .error "boom")
    "definitely-not-a-tool").2.2.2 (by decide)

theorem buildBusinessRuleUpdateData_no_tracking (args : Server.UpdateBusinessRuleArgs) :
    lookupField (Server.buildBusinessRuleUpdateData args) "sys_update_set" = none := by
  simp only [Server.buildBusinessRuleUpdateData]
  rw [lookupField_maybeSetVal_ne _ _ _ _ (by decide),
      lookupField_maybeSetVal_ne _ _ _ _ (by decide),
      lookupField_maybeSetVal_ne _ _ _ _ (by decide),
      lookupField_maybeSetVal_ne _ _ _ _ (by decide),
      lookupField_maybeSetVal_ne _ _ _ _ (by decide),
      lookupField_maybeSetVal_ne _ _ _ _ (by decide),
      lookupField_maybeSetVal_ne _ _ _ _ (by decide),
      lookupField_maybeSetVal_ne _ _ _ _ (by decide),
      lookupField_maybeSetVal_ne _ _ _ _ (by decide),
      lookupField_maybeSetVal_ne _ _ _ _ (by decide),
      lookupField_maybeSetVal_ne _ _ _ _ (by decide)]
  cases args.operation <;> simp [lookupField]

theorem updateBusinessRuleRequest_ok (fetch : Api.RemoteData)
    (sst : Server.ServerState) (args : Server.UpdateBusinessRuleArgs)
    (req : Api.HttpRequest)
    (h : Server.updateBusinessRuleRequest fetch sst args = .ok req) :
    req = Api.updateRecordRequest "sys_script" args.sys_id
      (Server.addUpdateSetToRecord sst.currentUpdateSetId
        (Server.buildBusinessRuleUpdateData args)) := by
  unfold Server.updateBusinessRuleRequest at h
  simp only [bind, Except.bind, pure, Except.pure] at h
  repeat' split at h
  all_goals simp at h
  all_goals exact h.symm

/-- C10: whenever the `update-business-rule` handler issues its PUT, the
transmitted body is the built update data with the session-level
tracking injection applied: with a non-empty tracked id `s` (and the
update data never containing `sys_update_set`, since the handler's field
list does not include it), the PUT body carries `sys_update_set = s` —
even though the client-level `updateRecord` itself transmits its payload
unchanged, with no injection of its own. -/
theorem C10_updateBusinessRule_injects_tracking (fetch : Api.RemoteData)
    (sst : Server.ServerState) (args : Server.UpdateBusinessRuleArgs)
    (s : String) (req : Api.HttpRequest)
    (hs : sst.currentUpdateSetId = some s) (hne : s ≠ "")
    (hreq : Server.updateBusinessRuleRequest fetch sst args = .ok req) :
    lookupField req.body "sys_update_set" = some (.str s) ∧
    req.method = "PUT" ∧
    (∀ (t i : String) (d : Payload), (Api.updateRecordRequest t i d).body = d) := by
  have hr := updateBusinessRuleRequest_ok fetch sst args req hreq
  have hnone := buildBusinessRuleUpdateData_no_tracking args
  have ht : truthyField (Server.buildBusinessRuleUpdateData args) "sys_update_set" = false := by
    simp [truthyField, hnone]
  refine ⟨?_, ?_, fun t i d => rfl⟩
  · rw [hr]
    simp [Api.updateRecordRequest, Server.addUpdateSetToRecord, hs, hne, ht,
      lookupField_setField_self]
  · rw [hr]
    rfl

/-- C10, witness: a concrete business-rule edit with tracked id `"us9"`
and no caller-supplied fields: the PUT body carries
`sys_update_set = "us9"`. -/
theorem C10_witness :
    lookupField (Api.updateRecordRequest "sys_script" "br1"
        (Server.addUpdateSetToRecord (some "us9")
          (Server.buildBusinessRuleUpdateData { sys_id := "br1" }))).body
      "sys_update_set" = some (.str "us9") :=
  (C10_updateBusinessRule_injects_tracking
    (fun _ _ => .ok [[("sys_id", Value.str "br1")]]) ⟨some "us9"⟩ { sys_id := "br1" }
    "us9"
    (Api.updateRecordRequest "sys_script" "br1"
      (Server.addUpdateSetToRecord (some "us9")
        (Server.buildBusinessRuleUpdateData { sys_id := "br1" })))
    rfl (by decide) rfl).1
